import Mathlib

/-!
Verification development for the Philippine telco news aggregator.

The definitions below are a shallow embedding of the filtering, deduplication
and merging pipeline of the repository:

* src/services/geminiService.ts : normalizeUrl, normalizeTitle,
  areDuplicateArticles, convertBuzzSumoToNewsArticle, mergeNewsWithBuzzSumo.
* src/unnamed/part_001 (the BuzzSumo service module) : deduplicateArticles,
  validateTelcoRelevance, filterImportantArticles, fetchPhilippineTelcoNews.
* src/unnamed/part_000 (the combined server file) : calculateTitleSimilarity
  and the /api/news request handler.  The server file carries its own copies of
  the BuzzSumo pipeline functions; they are textually identical to the ones in
  part_001 (up to the encoding of one string literal in the globe
  false-positive list), so a single embedding serves both.

JavaScript strings are modelled by Lean `String`; `toLowerCase`, the regex
classes `\w`/`\s` and `trim` are modelled for ASCII text, which is the alphabet
of every keyword list and of the comparison logic in the source.  Machine
numbers that the source uses as share counts are non-negative integers and are
modelled by `Nat`; the one fractional field (evergreen_score) is modelled by
`Option Rat` and is never used by the pipeline.
-/

/-- Models JavaScript `String.prototype.toLowerCase` (ASCII letters; the source
compares only ASCII keywords). -/
def jsToLower (s : String) : String :=
  String.mk (s.data.map Char.toLower)

/-- Models JavaScript `haystack.includes(needle)`: `needle` occurs contiguously
inside `haystack`. -/
def strIncludes (haystack needle : String) : Bool :=
  decide (needle.data <:+: haystack.data)

/-- Models the JavaScript regex class `\w` (ASCII word characters). -/
def isWordChar (c : Char) : Bool :=
  c.isAlphanum || c == '_'

/-- Models the global replacement of `\s+` by a single space: every maximal run
of whitespace characters becomes one space.  The boolean argument records
whether the previous character was whitespace. -/
def collapseWsAux : Bool → List Char → List Char
  | _, [] => []
  | afterWs, c :: rest =>
    if c.isWhitespace then
      if afterWs then collapseWsAux true rest
      else ' ' :: collapseWsAux true rest
    else c :: collapseWsAux false rest

/-- Models JavaScript `String.prototype.trim` on a character list. -/
def trimWs (cs : List Char) : List Char :=
  ((cs.dropWhile Char.isWhitespace).reverse.dropWhile Char.isWhitespace).reverse

/-- Embeds normalizeTitle (geminiService.ts lines 45-50 and the identical copy
in the server file): lower-case, delete every character that is neither a word
character nor whitespace, collapse whitespace runs to one space, trim. -/
def normalizeTitle (title : String) : String :=
  String.mk (trimWs (collapseWsAux false
    (((jsToLower title).data).filter (fun c => isWordChar c || c.isWhitespace))))

/-- Models JavaScript `title.split(/\s+/)`: the pieces between maximal
whitespace runs, including an empty piece at either end when the string starts
or ends with whitespace.  The state is `some acc` while a piece is being
accumulated (reversed) and `none` immediately after a separator run began. -/
def jsSplitWsAux : Option (List Char) → List Char → List String
  | some acc, [] => [String.mk acc.reverse]
  | none, [] => [""]
  | some acc, c :: rest =>
    if c.isWhitespace then String.mk acc.reverse :: jsSplitWsAux none rest
    else jsSplitWsAux (some (c :: acc)) rest
  | none, c :: rest =>
    if c.isWhitespace then jsSplitWsAux none rest
    else jsSplitWsAux (some [c]) rest

/-- Models JavaScript `title.split(/\s+/)`. -/
def jsSplitWs (s : String) : List String :=
  jsSplitWsAux (some []) s.data

/-- Models JavaScript `s.split(' ')` (every single space character is a
separator). -/
def splitOnSpaceAux (acc : List Char) : List Char → List String
  | [] => [String.mk acc.reverse]
  | c :: rest =>
    if c == ' ' then String.mk acc.reverse :: splitOnSpaceAux [] rest
    else splitOnSpaceAux (c :: acc) rest

/-- Models JavaScript `s.split(' ')`. -/
def splitOnSpace (s : String) : List String :=
  splitOnSpaceAux [] s.data

/-- Models the replacement `replace(/^www\./, '')`. -/
def stripLeadingWww (s : String) : String :=
  if ("www.".data).isPrefixOf s.data then String.mk (s.data.drop 4) else s

/-- Models the replacement `replace(/\/$/, '')` (drop one trailing slash). -/
def stripTrailingSlash (s : String) : String :=
  if s.data.getLast? = some '/' then String.mk s.data.dropLast else s

/-- Models the replacement `replace(/^https?:\/\//, '')`. -/
def stripHttpScheme (s : String) : String :=
  if ("https://".data).isPrefixOf s.data then String.mk (s.data.drop 8)
  else if ("http://".data).isPrefixOf s.data then String.mk (s.data.drop 7)
  else s

/-- Models `split('?')[0]`: keep everything before the first question mark. -/
def takeUntilQuery (s : String) : String :=
  String.mk (s.data.takeWhile (fun c => !(c == '?')))

/-- Models `new URL(url)` restricted to the fields normalizeUrl reads, for
http(s) URLs (the only scheme the aggregated articles carry): the scheme is
matched case-insensitively, the authority runs to the first `/`, `?` or `#`,
userinfo up to the last `@` is dropped, a `:port` suffix is dropped, the
hostname is lower-cased (WHATWG host normalization for ASCII hosts), and the
pathname is the case-preserved path up to `?` or `#`, defaulting to `/`.
Anything else (no http(s) scheme, or an empty host) is a parse failure,
sending normalizeUrl to its catch branch.  WHATWG dot-segment resolution and
percent-encoding are not modelled; no input considered here contains them. -/
def parseHttpUrl (url : String) : Option (String × String) :=
  let cs := url.data
  let lower := cs.map Char.toLower
  let rest? : Option (List Char) :=
    if ("https://".data).isPrefixOf lower then some (cs.drop 8)
    else if ("http://".data).isPrefixOf lower then some (cs.drop 7)
    else none
  match rest? with
  | none => none
  | some rest =>
    let authority := rest.takeWhile (fun c => !(c == '/' || c == '?' || c == '#'))
    let afterAuth := rest.dropWhile (fun c => !(c == '/' || c == '?' || c == '#'))
    let hostPort := (authority.reverse.takeWhile (fun c => !(c == '@'))).reverse
    let hostname := (hostPort.takeWhile (fun c => !(c == ':'))).map Char.toLower
    if hostname = [] then none
    else
      let path := afterAuth.takeWhile (fun c => !(c == '?' || c == '#'))
      let pathname := if path = [] then ['/'] else path
      some (String.mk hostname, String.mk pathname)

/-- Embeds normalizeUrl (geminiService.ts lines 27-40): on a successful URL
parse, hostname without a leading `www.` concatenated with the pathname
without a trailing slash; on parse failure, the string-level fallback
(lower-case, strip scheme, strip `www.`, strip one trailing slash, cut at the
first `?`). -/
def normalizeUrl (url : String) : String :=
  match parseHttpUrl url with
  | some (hostname, pathname) =>
    stripLeadingWww hostname ++ stripTrailingSlash pathname
  | none =>
    takeUntilQuery (stripTrailingSlash (stripLeadingWww (stripHttpScheme (jsToLower url))))

/-- Engagement metrics of a BuzzSumo article (types.ts EngagementMetrics).
Share and link counts are non-negative integers; evergreen_score is the one
fractional field and is never consulted by the pipeline. -/
structure EngagementMetrics where
  total_shares : Nat
  facebook_shares : Nat
  pinterest_shares : Nat
  twitter_shares : Nat
  total_links : Nat
  evergreen_score : Option Rat
deriving DecidableEq

/-- An article from the BuzzSumo (secondary, engagement-search) source
(types.ts BuzzSumoArticle). -/
structure BuzzSumoArticle where
  title : String
  url : String
  published_date : String
  author : Option String
  domain_name : String
  engagement : EngagementMetrics
  thumbnail : Option String
  excerpt : Option String
deriving DecidableEq

/-- The source field of a NewsArticle (types.ts NewsArticle.source). -/
structure SourceRef where
  title : String
  uri : String
deriving DecidableEq

/-- An article in the uniform Gemini-side representation (types.ts
NewsArticle). -/
structure NewsArticle where
  title : String
  date : String
  summary : String
  takeaways : List String
  source : SourceRef
  thumbnailUrl : Option String
deriving DecidableEq

/-- A per-company bucket (types.ts CompanyNewsSection). -/
structure CompanyNewsSection where
  companyName : String
  articles : List NewsArticle
deriving DecidableEq

/-- The bucketed primary result (types.ts NewsData). -/
structure NewsData where
  internationalNews : List NewsArticle
  generalNews : List NewsArticle
  companyNews : List CompanyNewsSection
deriving DecidableEq

/-- Embeds convertBuzzSumoToNewsArticle (geminiService.ts lines 7-22).  The
JavaScript expression `article.excerpt || default` falls back to the default
both when the excerpt is absent and when it is the empty string (an empty
string is falsy). -/
def convertBuzzSumoToNewsArticle (article : BuzzSumoArticle) : NewsArticle :=
  let fallbackSummary :=
    "Trending article from " ++ article.domain_name ++ " with " ++
      toString article.engagement.total_shares ++ " social shares."
  { title := article.title
    date := article.published_date
    summary :=
      match article.excerpt with
      | some e => if e = "" then fallbackSummary else e
      | none => fallbackSummary
    takeaways :=
      ["High engagement: " ++ toString article.engagement.total_shares ++
         " total shares across social platforms",
       "Source: " ++ article.domain_name]
    source := { title := article.domain_name, uri := article.url }
    thumbnailUrl := article.thumbnail }

/-- Embeds areDuplicateArticles (geminiService.ts lines 55-81): equal
normalized URLs, or equal normalized titles, or the shorter normalized title
(when longer than 10 characters) contained in the longer one. -/
def areDuplicateArticles (article1 article2 : NewsArticle) : Bool :=
  let url1 := normalizeUrl article1.source.uri
  let url2 := normalizeUrl article2.source.uri
  if url1 = url2 then true
  else
    let title1 := normalizeTitle article1.title
    let title2 := normalizeTitle article2.title
    if title1 = title2 then true
    else
      let longerTitle := if title1.length > title2.length then title1 else title2
      let shorterTitle := if title1.length > title2.length then title2 else title1
      decide (shorterTitle.length > 10) && strIncludes longerTitle shorterTitle

/-- Embeds mergeNewsWithBuzzSumo (geminiService.ts lines 86-111): convert the
BuzzSumo articles, collect every primary article, keep only BuzzSumo articles
that duplicate none of them, and append the survivors to the general bucket. -/
def mergeNewsWithBuzzSumo (googleNews : NewsData) (buzzsumoArticles : List BuzzSumoArticle) :
    NewsData :=
  let buzzsumoNewsArticles := buzzsumoArticles.map convertBuzzSumoToNewsArticle
  let existingArticles :=
    googleNews.internationalNews ++ googleNews.generalNews ++
      (googleNews.companyNews.map CompanyNewsSection.articles).flatten
  let uniqueBuzzsumoArticles := buzzsumoNewsArticles.filter fun buzzsumoArticle =>
    !(existingArticles.any fun existingArticle =>
        areDuplicateArticles existingArticle buzzsumoArticle)
  { googleNews with generalNews := googleNews.generalNews ++ uniqueBuzzsumoArticles }

/-- The telco-context indicator list of validateTelcoRelevance (part_001 lines
190-197). -/
def telcoCompanyIndicators : List String :=
  ["pldt", "globe telecom", "dito telecommunity", "dito telecoms",
   "converge ict", "smart communications",
   "telecommunications", "telecom", "telecoms",
   "mobile network", "broadband", "internet service provider", "isp",
   "5g network", "fiber network", "cellular",
   "dict", "ntc", "telco", "telcos"]

/-- The smart false-positive phrases (part_001 lines 201-207). -/
def smartFalsePositives : List String :=
  ["smart meter", "smart grid", "smart city", "smart home",
   "smart device", "smart tv", "smart watch", "smart phone",
   "smart technology", "smart monitoring", "smart system",
   "smart economics", "smart solution", "smart app",
   "smart card", "be smart", "work smart", "smart choice"]

/-- The literal Tagalog dito phrases (part_001 lines 223-226). -/
def ditoFalsePositives : List String :=
  ["dito sa", "dito ang", "dito na", "dito pa",
   "pumunta dito", "magtungo dito", "dumating dito"]

/-- The tokens that mark Tagalog usage when they directly follow the word
containing dito (part_001 line 241). -/
def tagalogFollowers : List String :=
  ["sa", "ang", "na", "pa", "ay"]

/-- The globe false-positive phrases (part_001 lines 257-260; the first entry
is transcribed byte-for-byte from the source file, where the accented word
appears in a doubly encoded form). -/
def globeFalsePositives : List String :=
  ["vendÃ©e globe", "golden globe", "globe award",
   "around the globe", "across the globe", "globe trot"]

/-- The converge false-positive phrases (part_001 lines 269-271). -/
def convergeFalsePositives : List String :=
  ["fiberxers", "fiber xers", "basketball", "pba"]

/-- The smart branch of validateTelcoRelevance (part_001 lines 200-219) as a
rejection predicate: the branch returns false exactly when the title contains
smart but not smart communications, some smart false-positive phrase occurs in
the title, and no telco indicator occurs in the combined text. -/
def smartCheck (title combined : String) : Bool :=
  strIncludes title "smart" && !(strIncludes title "smart communications") &&
    smartFalsePositives.any (fun fp => strIncludes title fp) &&
    !(telcoCompanyIndicators.any (fun indicator => strIncludes combined indicator))

/-- The token check of the dito branch (part_001 lines 233-243): the word list
of the title, the index of the first word containing dito, and whether the
token directly after it is one of the Tagalog followers.  findIdx returns the
list length when nothing matches, mirroring the guard against index -1. -/
def ditoNextWordReject (title : String) : Bool :=
  let words := jsSplitWs title
  let ditoIndex := words.findIdx (fun w => strIncludes w "dito")
  if ditoIndex < words.length then
    match words.get? (ditoIndex + 1) with
    | some nextWord => tagalogFollowers.contains nextWord
    | none => false
  else false

/-- The context check of the dito branch (part_001 lines 245-251): a standalone
dito with no telco indicator in the combined text is rejected. -/
def ditoNoContextReject (title combined : String) : Bool :=
  let words := jsSplitWs title
  let ditoIndex := words.findIdx (fun w => strIncludes w "dito")
  if ditoIndex < words.length then
    !(telcoCompanyIndicators.any (fun indicator => strIncludes combined indicator))
  else false

/-- The dito branch of validateTelcoRelevance (part_001 lines 222-253) as a
rejection predicate.  The sequential early returns of the source (phrase
match, then next-token match, then missing context) become a disjunction. -/
def ditoCheck (title combined : String) : Bool :=
  strIncludes title "dito" && !(strIncludes title "dito telecom") &&
    !(strIncludes title "dito network") &&
    (ditoFalsePositives.any (fun fp => strIncludes title fp) ||
     ditoNextWordReject title ||
     ditoNoContextReject title combined)

/-- The globe branch of validateTelcoRelevance (part_001 lines 256-265) as a
rejection predicate. -/
def globeCheck (title : String) : Bool :=
  strIncludes title "globe" && !(strIncludes title "globe telecom") &&
    globeFalsePositives.any (fun fp => strIncludes title fp)

/-- The converge branch of validateTelcoRelevance (part_001 lines 268-276) as a
rejection predicate. -/
def convergeCheck (title : String) : Bool :=
  strIncludes title "converge" && !(strIncludes title "converge ict") &&
    convergeFalsePositives.any (fun fp => strIncludes title fp)

/-- Embeds validateTelcoRelevance (part_001 lines 184-279).  The source is a
sequence of checks each of which may return false, with a final return true;
this is equivalent to the conjunction of the negated rejection predicates. -/
def validateTelcoRelevance (article : BuzzSumoArticle) : Bool :=
  let title := jsToLower article.title
  let excerpt := jsToLower (article.excerpt.getD "")
  let combined := title ++ " " ++ excerpt
  !(smartCheck title combined) && !(ditoCheck title combined) &&
    !(globeCheck title) && !(convergeCheck title)

/-- The sports keyword list of filterImportantArticles (part_001 lines
302-310). -/
def sportsKeywords : List String :=
  ["pba", "pvl", "uaap", "ncaa", "nba", "fiba",
   "basketball", "volleyball", "gilas",
   "traded", "debut", "match", "game", "score",
   "fiberxers", "high speed hitters", "tropang",
   "golden", "tournament", "championship", "playoffs",
   "injured", "injures", "triple-double", "season",
   "coach", "player", "team", "win", "loss", "defeat"]

/-- The low-importance keyword list (part_001 lines 317-325). -/
def lowImportanceKeywords : List String :=
  ["promo", "sale", "discount", "voucher", "giveaway",
   "celebrity", "endorsement", "ambassador",
   "raffle", "contest", "prize",
   "csr", "charity", "donation", "scholarship",
   "award ceremony", "recognition event",
   "new plan", "price cut", "special offer",
   "bundle", "freebie", "limited time"]

/-- The high-importance keyword list (part_001 lines 332-354); fiber and outage
appear twice in the source and the duplicates are kept. -/
def highImportanceKeywords : List String :=
  ["billion", "million", "investment", "capex",
   "infrastructure", "subsea cable", "fiber", "data center",
   "network expansion", "rollout", "deployment",
   "dict", "ntc", "regulatory", "policy", "law",
   "spectrum", "license", "permit", "circular",
   "5g", "fiber", "broadband", "satellite", "starlink",
   "cybersecurity", "breach", "hack", "outage",
   "merger", "acquisition", "partnership", "alliance",
   "earnings", "revenue", "profit", "quarterly",
   "stock", "ipo", "shares",
   "outage", "disruption", "complaint", "npc",
   "data breach", "privacy", "security"]

/-- The major Philippine news source allow-list (part_001 lines 362-367). -/
def majorNewsSources : List String :=
  ["philstar.com", "mb.com.ph", "bworldonline.com",
   "rappler.com", "inquirer.net", "gmanetwork.com",
   "abs-cbn.com", "manilatimes.net", "manilabulletin.com",
   "newsbytes.ph", "bilyonaryo.com"]

/-- The per-article predicate of filterImportantArticles (part_001 lines
286-375).  The source also lower-cases the URL into an unused local variable,
which is omitted.  The sequential early returns become a conjunction. -/
def isImportantArticle (article : BuzzSumoArticle) : Bool :=
  let title := jsToLower article.title
  let domain := jsToLower article.domain_name
  validateTelcoRelevance article &&
    !(strIncludes domain "youtube.com" || strIncludes domain "youtu.be") &&
    !(sportsKeywords.any (fun keyword => strIncludes title keyword)) &&
    !(lowImportanceKeywords.any (fun keyword => strIncludes title keyword)) &&
    (highImportanceKeywords.any (fun keyword => strIncludes title keyword) ||
     (majorNewsSources.any (fun source => strIncludes domain source) &&
      !(strIncludes title "ad") && !(strIncludes title "sponsored")))

/-- Embeds filterImportantArticles (part_001 lines 285-376). -/
def filterImportantArticles (articles : List BuzzSumoArticle) : List BuzzSumoArticle :=
  articles.filter isImportantArticle

/-- The key under which deduplicateArticles stores an article (part_001 line
171): the lower-cased URL with one trailing slash removed. -/
def dedupKey (article : BuzzSumoArticle) : String :=
  stripTrailingSlash (jsToLower article.url)

/-- The filter of deduplicateArticles with its mutable seen set made explicit
(part_001 lines 168-178): an article whose key is already in the set is
dropped, otherwise it is kept and its key recorded. -/
def dedupGo : List BuzzSumoArticle → List String → List BuzzSumoArticle
  | [], _ => []
  | article :: rest, seen =>
    if seen.contains (dedupKey article) then dedupGo rest seen
    else article :: dedupGo rest (dedupKey article :: seen)

/-- Embeds deduplicateArticles (part_001 lines 168-178). -/
def deduplicateArticles (articles : List BuzzSumoArticle) : List BuzzSumoArticle :=
  dedupGo articles []

/-- The comparator of the sort in fetchPhilippineTelcoNews (part_001 lines
152-154): descending by total shares.  The JavaScript sort is stable
(ECMAScript 2019), so the call is modelled by a stable insertion sort under
this relation. -/
def byTotalShares (a b : BuzzSumoArticle) : Prop :=
  b.engagement.total_shares ≤ a.engagement.total_shares

instance : DecidableRel byTotalShares :=
  fun a b => Nat.decLe b.engagement.total_shares a.engagement.total_shares

/-- The body of the try block of fetchPhilippineTelcoNews (part_001 lines
134-157), applied to the article list the BuzzSumo fetch returned: intra-source
URL dedup, importance filtering (which runs relevance validation first), stable
descending sort by total shares, truncation to 15. -/
def fetchPipeline (articles : List BuzzSumoArticle) : List BuzzSumoArticle :=
  (List.insertionSort byTotalShares
    (filterImportantArticles (deduplicateArticles articles))).take 15

/-- Embeds fetchPhilippineTelcoNews (part_001 lines 120-163) as a function of
the outcome of the BuzzSumo fetch: a successful fetch feeds the pipeline, any
thrown error is caught and turned into the empty list (graceful
degradation). -/
def fetchPhilippineTelcoNews (fetched : Except String (List BuzzSumoArticle)) :
    List BuzzSumoArticle :=
  match fetched with
  | .ok articles => fetchPipeline articles
  | .error _ => []

/-- Embeds calculateTitleSimilarity (part_000 lines 217-230).  The JavaScript
Set built from the split tokens is modelled through List.dedup: the
intersection count is the number of distinct tokens of the first title that
occur among the tokens of the second, and the union count is the number of
distinct tokens of the concatenation, exactly the two cardinalities the source
computes.  The division of the two small integer counts is modelled in Rat. -/
def calculateTitleSimilarity (title1 title2 : String) : Rat :=
  let norm1 := normalizeTitle title1
  let norm2 := normalizeTitle title2
  if norm1 = norm2 then 1
  else
    let words1 := splitOnSpace norm1
    let words2 := splitOnSpace norm2
    let intersection := ((words1.dedup).filter (fun w => words2.contains w)).length
    let union := ((words1 ++ words2).dedup).length
    if 0 < union then (intersection : Rat) / (union : Rat) else 0

/-- The response of the /api/news handler, restricted to the two shapes the
handler can produce after both fetches settle: the success payload
(geminiNews and buzzsumoArticles) or an error status with an error string and
a details string. -/
inductive ApiNewsResponse where
  | success (geminiNews : NewsData) (buzzsumoArticles : List BuzzSumoArticle)
  | failure (status : Nat) (error : String) (details : String)
deriving DecidableEq

/-- Embeds the /api/news handler (part_000 lines 793-845) from the point where
Promise.allSettled has delivered both outcomes.  The URL repair pass
(fixAndValidateArticleUrls) is an external collaborator that consumes the
parsed data, the grounding chunks (of abstract type γ) and the BuzzSumo
articles; it is taken as a parameter.  A rejected Gemini fetch becomes a 500
response carrying the rejection message as details; a rejected BuzzSumo fetch
is replaced by the empty article list and the handler proceeds. -/
def apiNewsHandler {γ : Type} (repairUrls : NewsData → γ → List BuzzSumoArticle → NewsData)
    (geminiResult : Except String (NewsData × γ))
    (buzzsumoResult : Except String (List BuzzSumoArticle)) : ApiNewsResponse :=
  match geminiResult with
  | .error msg => .failure 500 "Failed to fetch news from Gemini API" msg
  | .ok (parsedData, groundingChunks) =>
    let buzzsumoArticles :=
      match buzzsumoResult with
      | .ok articles => articles
      | .error _ => []
    .success (repairUrls parsedData groundingChunks buzzsumoArticles) buzzsumoArticles

/-- Engagement metrics used by the concrete sample articles below. -/
def sampleEngagement : EngagementMetrics :=
  { total_shares := 100, facebook_shares := 0, pinterest_shares := 0,
    twitter_shares := 0, total_links := 0, evergreen_score := none }

/-- A primary-source article about a concrete event, used in the merge
scenario. -/
def samplePrimaryArticle : NewsArticle :=
  { title := "Globe Telecom Launches 5G Network Expansion in Cebu",
    date := "January 5, 2025",
    summary := "Expansion announced.",
    takeaways := ["Coverage grows", "Capex committed"],
    source := { title := "PhilStar", uri := "https://philstar.com/headline/story-a" },
    thumbnailUrl := none }

/-- A secondary-source article about the same event with a different URL and a
near-identical title (a substring of the primary title). -/
def sampleSecondaryArticle : BuzzSumoArticle :=
  { title := "Globe Telecom Launches 5G Network Expansion",
    url := "https://rappler.com/business/story-b",
    published_date := "January 5, 2025", author := none,
    domain_name := "rappler.com", engagement := sampleEngagement,
    thumbnail := none, excerpt := none }

/-- A primary result set holding only the sample primary article. -/
def samplePrimaryData : NewsData :=
  { internationalNews := [], generalNews := [samplePrimaryArticle], companyNews := [] }

/-- An article whose URL has no www and no trailing slash. -/
def sampleUrlArticleA : BuzzSumoArticle :=
  { title := "Story A", url := "https://example.com/news",
    published_date := "January 1, 2025", author := none, domain_name := "example.com",
    engagement := sampleEngagement, thumbnail := none, excerpt := none }

/-- An article whose URL differs from the previous one only by a www prefix,
so the two URLs agree after the full URL normalization but differ as
lower-cased strings. -/
def sampleUrlArticleB : BuzzSumoArticle :=
  { title := "Story A again", url := "https://www.example.com/news",
    published_date := "January 1, 2025", author := none, domain_name := "example.com",
    engagement := sampleEngagement, thumbnail := none, excerpt := none }

/-- C10: mergeNewsWithBuzzSumo modifies only the general bucket: the
international and company buckets are returned unchanged and the input general
list is a prefix of the output general list. -/
theorem mergeNewsWithBuzzSumo_frame (googleNews : NewsData)
    (buzzsumoArticles : List BuzzSumoArticle) :
    (mergeNewsWithBuzzSumo googleNews buzzsumoArticles).internationalNews =
        googleNews.internationalNews ∧
    (mergeNewsWithBuzzSumo googleNews buzzsumoArticles).companyNews =
        googleNews.companyNews ∧
    ∃ appended,
      googleNews.generalNews ++ appended =
        (mergeNewsWithBuzzSumo googleNews buzzsumoArticles).generalNews :=
  ⟨rfl, rfl, _, rfl⟩

/-- C5: the output general bucket is the input general bucket followed, in
order, by exactly those converted secondary articles that duplicate no article
of any primary bucket; and in the concrete same-event scenario (different
URLs, the secondary normalized title a length-43 substring of the primary
normalized title) the secondary copy is dropped, leaving exactly one copy. -/
theorem mergeNewsWithBuzzSumo_general_spec :
    (∀ (googleNews : NewsData) (buzzsumoArticles : List BuzzSumoArticle),
      (mergeNewsWithBuzzSumo googleNews buzzsumoArticles).generalNews =
        googleNews.generalNews ++
          (buzzsumoArticles.map convertBuzzSumoToNewsArticle).filter fun buzzsumoArticle =>
            !((googleNews.internationalNews ++ googleNews.generalNews ++
                (googleNews.companyNews.map CompanyNewsSection.articles).flatten).any
              fun existingArticle => areDuplicateArticles existingArticle buzzsumoArticle)) ∧
    normalizeUrl sampleSecondaryArticle.url ≠
      normalizeUrl samplePrimaryArticle.source.uri ∧
    10 < (normalizeTitle sampleSecondaryArticle.title).length ∧
    strIncludes (normalizeTitle samplePrimaryArticle.title)
      (normalizeTitle sampleSecondaryArticle.title) = true ∧
    (mergeNewsWithBuzzSumo samplePrimaryData [sampleSecondaryArticle]).generalNews =
      [samplePrimaryArticle] :=
  ⟨fun _ _ => rfl, by decide, by decide, by decide, by decide⟩

/-- C7: a failed primary (Gemini) fetch makes the whole request fail with a 500
response carrying the failure message; a failed secondary (BuzzSumo) fetch is
invisible, the handler behaving exactly as if the secondary source had
returned the empty list; and the secondary fetcher itself converts any thrown
error into the empty article list. -/
theorem apiNewsHandler_spec :
    (∀ (γ : Type) (repairUrls : NewsData → γ → List BuzzSumoArticle → NewsData)
        (msg : String) (buzzsumoResult : Except String (List BuzzSumoArticle)),
      apiNewsHandler repairUrls (.error msg) buzzsumoResult =
        .failure 500 "Failed to fetch news from Gemini API" msg) ∧
    (∀ (γ : Type) (repairUrls : NewsData → γ → List BuzzSumoArticle → NewsData)
        (geminiValue : NewsData × γ) (msg : String),
      apiNewsHandler repairUrls (.ok geminiValue) (.error msg) =
        apiNewsHandler repairUrls (.ok geminiValue) (.ok [])) ∧
    (∀ msg : String, fetchPhilippineTelcoNews (.error msg) = []) :=
  ⟨fun _ _ _ _ => rfl, fun _ _ geminiValue _ => by cases geminiValue; rfl, fun _ => rfl⟩

/-- Membership in a string list agrees with the boolean contains test. -/
theorem string_contains_iff (seen : List String) (k : String) :
    seen.contains k = true ↔ k ∈ seen := by
  simp

/-- The dedup filter returns a subsequence of its input. -/
theorem dedupGo_sublist (xs : List BuzzSumoArticle) (seen : List String) :
    List.Sublist (dedupGo xs seen) xs := by
  induction xs generalizing seen with
  | nil => simp [dedupGo]
  | cons a rest ih =>
    simp only [dedupGo]
    split
    · exact (ih _).trans (List.sublist_cons_self a rest)
    · exact (ih _).cons₂ a

/-- The key of every article the dedup filter keeps is outside the seen set it
started from. -/
theorem dedupGo_key_not_seen {xs : List BuzzSumoArticle} {seen : List String}
    {b : BuzzSumoArticle} (hb : b ∈ dedupGo xs seen) : dedupKey b ∉ seen := by
  induction xs generalizing seen with
  | nil => simp [dedupGo] at hb
  | cons a rest ih =>
    simp only [dedupGo] at hb
    split at hb
    · exact ih hb
    · rename_i h
      rcases List.mem_cons.mp hb with rfl | hb'
      · exact fun hmem => h ((string_contains_iff _ _).mpr hmem)
      · exact fun hmem => ih hb' (List.mem_cons_of_mem _ hmem)

/-- The articles the dedup filter keeps have pairwise distinct keys. -/
theorem dedupGo_keys_nodup (xs : List BuzzSumoArticle) (seen : List String) :
    ((dedupGo xs seen).map dedupKey).Nodup := by
  induction xs generalizing seen with
  | nil => simp [dedupGo]
  | cons a rest ih =>
    simp only [dedupGo]
    split
    · exact ih _
    · simp only [List.map_cons, List.nodup_cons]
      refine ⟨fun hmem => ?_, ih _⟩
      obtain ⟨b, hb, hkey⟩ := List.mem_map.mp hmem
      exact dedupGo_key_not_seen hb (hkey ▸ List.mem_cons_self _ _)

/-- Every key of the input is in the seen set or among the kept keys. -/
theorem dedupGo_covers {xs : List BuzzSumoArticle} {seen : List String}
    {a : BuzzSumoArticle} (ha : a ∈ xs) :
    dedupKey a ∈ seen ∨ dedupKey a ∈ (dedupGo xs seen).map dedupKey := by
  induction xs generalizing seen with
  | nil => simp at ha
  | cons x rest ih =>
    simp only [dedupGo]
    rcases List.mem_cons.mp ha with rfl | ha'
    · split
      · rename_i h
        exact .inl ((string_contains_iff _ _).mp h)
      · right
        simp
    · split
      · exact ih ha'
      · rcases @ih (dedupKey x :: seen) ha' with hmem | hmem
        · rcases List.mem_cons.mp hmem with heq | hseen
          · right
            simp [heq]
          · exact .inl hseen
        · exact .inr (List.mem_cons_of_mem _ hmem)

/-- Every article the dedup filter keeps is the first input article bearing its
key. -/
theorem dedupGo_first {xs : List BuzzSumoArticle} {seen : List String}
    {b : BuzzSumoArticle} (hb : b ∈ dedupGo xs seen) :
    xs.find? (fun x => dedupKey x == dedupKey b) = some b := by
  induction xs generalizing seen with
  | nil => simp [dedupGo] at hb
  | cons a rest ih =>
    simp only [dedupGo] at hb
    split at hb
    · rename_i h
      have hbk := dedupGo_key_not_seen hb
      have hne : (dedupKey a == dedupKey b) = false := by
        simp only [beq_eq_false_iff_ne]
        exact fun he => hbk (he ▸ (string_contains_iff _ _).mp h)
      simp only [List.find?_cons, hne]
      exact ih hb
    · rcases List.mem_cons.mp hb with rfl | hb'
      · simp [List.find?_cons]
      · have hbk := dedupGo_key_not_seen hb'
        have hne : (dedupKey a == dedupKey b) = false := by
          simp only [beq_eq_false_iff_ne]
          exact fun he => hbk (he ▸ List.mem_cons_self _ _)
        simp only [List.find?_cons, hne]
        exact ih hb'

/-- On an input whose keys are pairwise distinct and disjoint from the seen
set, the dedup filter keeps everything. -/
theorem dedupGo_of_nodup {xs : List BuzzSumoArticle} {seen : List String}
    (hnd : (xs.map dedupKey).Nodup)
    (hdisj : ∀ a ∈ xs, dedupKey a ∉ seen) : dedupGo xs seen = xs := by
  induction xs generalizing seen with
  | nil => rfl
  | cons a rest ih =>
    simp only [List.map_cons, List.nodup_cons] at hnd
    simp only [dedupGo]
    rw [if_neg fun h => hdisj a (List.mem_cons_self _ _) ((string_contains_iff _ _).mp h)]
    congr 1
    refine ih hnd.2 fun b hb => ?_
    intro hmem
    rcases List.mem_cons.mp hmem with heq | hseen
    · exact hnd.1 (heq ▸ List.mem_map_of_mem dedupKey hb)
    · exact hdisj b (List.mem_cons_of_mem _ hb) hseen

/-- C8: deduplicateArticles is idempotent. -/
theorem deduplicateArticles_idempotent (articles : List BuzzSumoArticle) :
    deduplicateArticles (deduplicateArticles articles) = deduplicateArticles articles :=
  dedupGo_of_nodup (dedupGo_keys_nodup articles []) (by simp)

/-- C6 counterexample: two articles whose URLs agree under the full URL
normalization of section 4.1 (protocol and www stripped, query dropped) but
differ as lower-cased strings; the intra-source Deduplicator keeps both, so
the second occurrence survives, contradicting the claim that the §4.1-based
key leaves only the first occurrence. -/
theorem deduplicateArticles_key_counterexample :
    normalizeUrl sampleUrlArticleA.url = normalizeUrl sampleUrlArticleB.url ∧
    deduplicateArticles [sampleUrlArticleA, sampleUrlArticleB] =
      [sampleUrlArticleA, sampleUrlArticleB] ∧
    sampleUrlArticleB ∈ deduplicateArticles [sampleUrlArticleA, sampleUrlArticleB] ∧
    dedupKey sampleUrlArticleA ≠ dedupKey sampleUrlArticleB :=
  ⟨by decide, by decide, by decide, by decide⟩

/-- C6 amended: the intra-source Deduplicator keys articles by the lower-cased
URL with one trailing slash stripped (protocol, www and query string are kept):
the output is a subsequence of the input with pairwise distinct keys, every
input key is represented, and each surviving article is the first input
article bearing its key. -/
theorem deduplicateArticles_key_spec (articles : List BuzzSumoArticle) :
    List.Sublist (deduplicateArticles articles) articles ∧
    ((deduplicateArticles articles).map dedupKey).Nodup ∧
    (∀ a ∈ articles, dedupKey a ∈ (deduplicateArticles articles).map dedupKey) ∧
    (∀ b ∈ deduplicateArticles articles,
      articles.find? (fun x => dedupKey x == dedupKey b) = some b) := by
  refine ⟨dedupGo_sublist articles [], dedupGo_keys_nodup articles [], fun a ha => ?_, ?_⟩
  · rcases @dedupGo_covers articles [] a ha with hmem | hmem
    · simp at hmem
    · exact hmem
  · exact fun b hb => dedupGo_first hb

/-- C6 witness: the amended statement applied to the concrete two-article list,
with each membership hypothesis discharged there. -/
theorem deduplicateArticles_key_spec_witness :
    dedupKey sampleUrlArticleA ∈
      (deduplicateArticles [sampleUrlArticleA, sampleUrlArticleB]).map dedupKey ∧
    [sampleUrlArticleA, sampleUrlArticleB].find?
      (fun x => dedupKey x == dedupKey sampleUrlArticleB) = some sampleUrlArticleB := by
  obtain ⟨-, -, h3, h4⟩ := deduplicateArticles_key_spec [sampleUrlArticleA, sampleUrlArticleB]
  exact ⟨h3 sampleUrlArticleA (by decide), h4 sampleUrlArticleB (by decide)⟩

/-- A secondary-source article that passes relevance validation and importance
classification (high-importance keywords, major outlet). -/
def sampleImportantArticle : BuzzSumoArticle :=
  { title := "PLDT announces billion peso investment", url := "https://philstar.com/x",
    published_date := "January 1, 2025", author := none, domain_name := "philstar.com",
    engagement := sampleEngagement, thumbnail := none, excerpt := none }

/-- The importance predicate runs relevance validation first, so an important
article is in particular relevant. -/
theorem isImportantArticle_relevant {article : BuzzSumoArticle}
    (h : isImportantArticle article = true) : validateTelcoRelevance article = true := by
  cases hv : validateTelcoRelevance article with
  | true => rfl
  | false =>
    rw [isImportantArticle, hv] at h
    simp at h

/-- C2: on every article list the secondary fetch returns, the pipeline outputs
at most 15 articles, sorted non-increasingly by total shares, and every output
article survived the intra-source URL dedup, the relevance validation and the
importance classification. -/
theorem fetchPhilippineTelcoNews_spec (articles : List BuzzSumoArticle) :
    (fetchPhilippineTelcoNews (.ok articles)).length ≤ 15 ∧
    List.Sorted byTotalShares (fetchPhilippineTelcoNews (.ok articles)) ∧
    ∀ a ∈ fetchPhilippineTelcoNews (.ok articles),
      a ∈ deduplicateArticles articles ∧ validateTelcoRelevance a = true ∧
        isImportantArticle a = true := by
  haveI : IsTotal BuzzSumoArticle byTotalShares :=
    ⟨fun a b => Nat.le_total b.engagement.total_shares a.engagement.total_shares⟩
  haveI : IsTrans BuzzSumoArticle byTotalShares :=
    ⟨fun _ _ _ hab hbc => Nat.le_trans hbc hab⟩
  refine ⟨List.length_take_le _ _, ?_, ?_⟩
  · exact List.Pairwise.sublist (List.take_sublist _ _)
      (List.sorted_insertionSort byTotalShares _)
  · intro a ha
    have h1 := List.take_subset 15 _ ha
    have h2 := (List.mem_insertionSort byTotalShares).mp h1
    obtain ⟨hmem, himp⟩ := List.mem_filter.mp h2
    exact ⟨hmem, isImportantArticle_relevant himp, himp⟩

/-- C2 witness: the pipeline statement applied to a concrete one-article list,
with the membership hypothesis discharged at the concrete output. -/
theorem fetchPhilippineTelcoNews_spec_witness :
    (fetchPhilippineTelcoNews (.ok [sampleImportantArticle])).length ≤ 15 ∧
    List.Sorted byTotalShares (fetchPhilippineTelcoNews (.ok [sampleImportantArticle])) ∧
    (sampleImportantArticle ∈ deduplicateArticles [sampleImportantArticle] ∧
     validateTelcoRelevance sampleImportantArticle = true ∧
     isImportantArticle sampleImportantArticle = true) := by
  obtain ⟨h1, h2, h3⟩ := fetchPhilippineTelcoNews_spec [sampleImportantArticle]
  exact ⟨h1, h2, h3 sampleImportantArticle (by decide)⟩

/-- The importance predicate of a relevant article, characterized: no video
domain, no sports keyword, no low-importance keyword, and a high-importance
keyword or an allow-listed domain without the naive ad markers. -/
theorem isImportantArticle_iff {article : BuzzSumoArticle}
    (hrel : validateTelcoRelevance article = true) :
    isImportantArticle article = true ↔
      ((strIncludes (jsToLower article.domain_name) "youtube.com" = false ∧
        strIncludes (jsToLower article.domain_name) "youtu.be" = false) ∧
       (∀ keyword ∈ sportsKeywords,
         strIncludes (jsToLower article.title) keyword = false) ∧
       (∀ keyword ∈ lowImportanceKeywords,
         strIncludes (jsToLower article.title) keyword = false) ∧
       ((∃ keyword ∈ highImportanceKeywords,
          strIncludes (jsToLower article.title) keyword = true) ∨
        ((∃ source ∈ majorNewsSources,
           strIncludes (jsToLower article.domain_name) source = true) ∧
         strIncludes (jsToLower article.title) "ad" = false ∧
         strIncludes (jsToLower article.title) "sponsored" = false))) := by
  rw [isImportantArticle, hrel]
  simp only [Bool.true_and, Bool.and_eq_true, Bool.not_eq_true', Bool.or_eq_false_iff,
    List.any_eq_false, Bool.not_eq_true, List.any_eq_true, Bool.or_eq_true, and_assoc]

/-- C3: an article that passes relevance validation is kept by
filterImportantArticles exactly when its domain carries no video platform, its
lower-cased title carries no sports keyword and no low-importance keyword, and
it either carries a high-importance keyword or comes from an allow-listed
major outlet while its title contains neither of the naive substrings ad and
sponsored. -/
theorem filterImportantArticles_spec (article : BuzzSumoArticle)
    (articles : List BuzzSumoArticle)
    (hrel : validateTelcoRelevance article = true) :
    article ∈ filterImportantArticles articles ↔
      article ∈ articles ∧
      ((strIncludes (jsToLower article.domain_name) "youtube.com" = false ∧
        strIncludes (jsToLower article.domain_name) "youtu.be" = false) ∧
       (∀ keyword ∈ sportsKeywords,
         strIncludes (jsToLower article.title) keyword = false) ∧
       (∀ keyword ∈ lowImportanceKeywords,
         strIncludes (jsToLower article.title) keyword = false) ∧
       ((∃ keyword ∈ highImportanceKeywords,
          strIncludes (jsToLower article.title) keyword = true) ∨
        ((∃ source ∈ majorNewsSources,
           strIncludes (jsToLower article.domain_name) source = true) ∧
         strIncludes (jsToLower article.title) "ad" = false ∧
         strIncludes (jsToLower article.title) "sponsored" = false))) := by
  rw [filterImportantArticles, List.mem_filter]
  exact and_congr_right fun _ => isImportantArticle_iff hrel

/-- C3 witness: the characterization applied to a concrete relevant article
inside a concrete one-article list, with the relevance hypothesis discharged
by evaluation. -/
theorem filterImportantArticles_spec_witness :
    sampleImportantArticle ∈ filterImportantArticles [sampleImportantArticle] ↔
      sampleImportantArticle ∈ [sampleImportantArticle] ∧
      ((strIncludes (jsToLower sampleImportantArticle.domain_name) "youtube.com" = false ∧
        strIncludes (jsToLower sampleImportantArticle.domain_name) "youtu.be" = false) ∧
       (∀ keyword ∈ sportsKeywords,
         strIncludes (jsToLower sampleImportantArticle.title) keyword = false) ∧
       (∀ keyword ∈ lowImportanceKeywords,
         strIncludes (jsToLower sampleImportantArticle.title) keyword = false) ∧
       ((∃ keyword ∈ highImportanceKeywords,
          strIncludes (jsToLower sampleImportantArticle.title) keyword = true) ∨
        ((∃ source ∈ majorNewsSources,
           strIncludes (jsToLower sampleImportantArticle.domain_name) source = true) ∧
         strIncludes (jsToLower sampleImportantArticle.title) "ad" = false ∧
         strIncludes (jsToLower sampleImportantArticle.title) "sponsored" = false))) :=
  filterImportantArticles_spec sampleImportantArticle [sampleImportantArticle] (by decide)

/-- The substring test agrees with list containment of the character data. -/
theorem str_includes_iff (s t : String) : strIncludes s t = true ↔ t.data <:+: s.data := by
  simp [strIncludes]

/-- Strings with equal character data are equal. -/
theorem str_eq_of_data_eq {s t : String} (h : s.data = t.data) : s = t :=
  congrArg String.mk h

/-- A substring is no longer than the string containing it. -/
theorem str_includes_length_le {s t : String} (h : strIncludes s t = true) :
    t.length ≤ s.length :=
  ((str_includes_iff s t).mp h).length_le

/-- A substring at least as long as its container equals it. -/
theorem str_includes_eq_of_ge {s t : String} (h : strIncludes s t = true)
    (hle : s.length ≤ t.length) : s = t := by
  have hin := (str_includes_iff s t).mp h
  exact (str_eq_of_data_eq (hin.eq_of_length (Nat.le_antisymm hin.length_le hle))).symm

/-- A sample article carrying the first URL of the normalization example. -/
def sampleDupUrlArticle1 : NewsArticle :=
  { title := "Story headline one",
    date := "January 2, 2025", summary := "s", takeaways := ["x", "y"],
    source := { title := "Example", uri := "https://Example.com/news/story/" },
    thumbnailUrl := none }

/-- A sample article carrying the second URL of the normalization example,
with an unrelated title, so only the URL rule can make the pair duplicates. -/
def sampleDupUrlArticle2 : NewsArticle :=
  { title := "A completely different headline",
    date := "January 3, 2025", summary := "t", takeaways := ["x", "y"],
    source := { title := "Example", uri := "https://www.example.com/news/story?utm=1" },
    thumbnailUrl := none }

/-- C1: areDuplicateArticles holds exactly when the normalized URLs agree, or
the normalized titles agree, or the shorter normalized title is longer than 10
characters and occurs inside the longer one (stated symmetrically through the
minimum length and containment either way); and the two example URLs both
normalize to example.com slash news slash story, making the two articles
carrying them duplicates. -/
theorem areDuplicateArticles_spec :
    (∀ article1 article2 : NewsArticle,
      areDuplicateArticles article1 article2 = true ↔
        (normalizeUrl article1.source.uri = normalizeUrl article2.source.uri ∨
         normalizeTitle article1.title = normalizeTitle article2.title ∨
         (10 < min (normalizeTitle article1.title).length
            (normalizeTitle article2.title).length ∧
          (strIncludes (normalizeTitle article2.title) (normalizeTitle article1.title) = true ∨
           strIncludes (normalizeTitle article1.title) (normalizeTitle article2.title) = true)))) ∧
    normalizeUrl "https://Example.com/news/story/" = "example.com/news/story" ∧
    normalizeUrl "https://www.example.com/news/story?utm=1" = "example.com/news/story" ∧
    areDuplicateArticles sampleDupUrlArticle1 sampleDupUrlArticle2 = true := by
  refine ⟨fun article1 article2 => ?_, by decide, by decide, by decide⟩
  unfold areDuplicateArticles
  by_cases hu : normalizeUrl article1.source.uri = normalizeUrl article2.source.uri
  · simp [hu]
  · rw [if_neg hu]
    by_cases ht : normalizeTitle article1.title = normalizeTitle article2.title
    · simp [ht]
    · rw [if_neg ht]
      simp only [hu, ht, false_or]
      by_cases hl : (normalizeTitle article1.title).length > (normalizeTitle article2.title).length
      · rw [if_pos hl, if_pos hl]
        simp only [Bool.and_eq_true, decide_eq_true_iff]
        rw [Nat.min_eq_right (Nat.le_of_lt hl)]
        constructor
        · rintro ⟨h10, hinc⟩
          exact ⟨h10, .inr hinc⟩
        · rintro ⟨h10, hinc | hinc⟩
          · exact absurd (str_includes_length_le hinc) (Nat.not_le_of_lt hl)
          · exact ⟨h10, hinc⟩
      · rw [if_neg hl, if_neg hl]
        simp only [Bool.and_eq_true, decide_eq_true_iff]
        have hle : (normalizeTitle article1.title).length ≤
            (normalizeTitle article2.title).length := Nat.le_of_not_lt hl
        rw [Nat.min_eq_left hle]
        constructor
        · rintro ⟨h10, hinc⟩
          exact ⟨h10, .inl hinc⟩
        · rintro ⟨h10, hinc | hinc⟩
          · exact ⟨h10, hinc⟩
          · exact absurd (str_includes_eq_of_ge hinc hle) ht

/-- The intersection count of the similarity scorer is the cardinality of the
intersection of the two token sets. -/
theorem dedup_filter_contains_length (w1 w2 : List String) :
    ((w1.dedup).filter (fun w => w2.contains w)).length =
      (w1.toFinset ∩ w2.toFinset).card := by
  have hnd : ((w1.dedup).filter (fun w => w2.contains w)).Nodup :=
    (List.nodup_dedup w1).filter _
  have hset : ((w1.dedup).filter (fun w => w2.contains w)).toFinset =
      w1.toFinset ∩ w2.toFinset := by
    ext a
    simp [List.mem_filter]
  calc ((w1.dedup).filter (fun w => w2.contains w)).length
      = ((w1.dedup).filter (fun w => w2.contains w)).dedup.length := by rw [hnd.dedup]
    _ = ((w1.dedup).filter (fun w => w2.contains w)).toFinset.card :=
        (List.card_toFinset _).symm
    _ = (w1.toFinset ∩ w2.toFinset).card := by rw [hset]

/-- The union count of the similarity scorer is the cardinality of the union
of the two token sets. -/
theorem append_dedup_length (w1 w2 : List String) :
    ((w1 ++ w2).dedup).length = (w1.toFinset ∪ w2.toFinset).card := by
  rw [← List.card_toFinset, List.toFinset_append]

/-- C9: calculateTitleSimilarity is symmetric in its two titles, and every
title has similarity one with itself. -/
theorem calculateTitleSimilarity_spec :
    (∀ title1 title2 : String,
      calculateTitleSimilarity title1 title2 = calculateTitleSimilarity title2 title1) ∧
    (∀ title : String, calculateTitleSimilarity title title = 1) := by
  constructor
  · intro title1 title2
    simp only [calculateTitleSimilarity]
    by_cases h : normalizeTitle title1 = normalizeTitle title2
    · rw [if_pos h, if_pos h.symm]
    · rw [if_neg h, if_neg (Ne.symm h)]
      rw [dedup_filter_contains_length, dedup_filter_contains_length,
        append_dedup_length, append_dedup_length,
        Finset.inter_comm, Finset.union_comm]
  · intro title
    simp [calculateTitleSimilarity]

/-- A prefix of a list that avoids the element at a given position stays inside
the part before that position. -/
theorem prefix_of_prefix_append_cons {α : Type} {ds l r : List α} {c : α}
    (hc : c ∉ ds) (h : ds <+: l ++ c :: r) : ds <+: l := by
  induction l generalizing ds with
  | nil =>
    rcases List.prefix_cons_iff.mp h with rfl | ⟨t, rfl, -⟩
    · exact List.nil_prefix
    · exact absurd (List.mem_cons_self c t) hc
  | cons a lrest ih =>
    rcases List.prefix_cons_iff.mp h with rfl | ⟨t, rfl, ht⟩
    · exact List.nil_prefix
    · obtain ⟨w, hw⟩ := ih (fun hm => hc (List.mem_cons_of_mem _ hm)) ht
      exact ⟨w, by simp [hw]⟩

/-- A contiguous occurrence that avoids a separator element lies entirely on
one side of it. -/
theorem infix_append_cons_elim {α : Type} {ds l r : List α} {c : α}
    (hc : c ∉ ds) (h : ds <:+: l ++ c :: r) : ds <:+: l ∨ ds <:+: r := by
  induction l with
  | nil =>
    rcases List.infix_cons_iff.mp h with hp | hi
    · have hd := prefix_of_prefix_append_cons (l := []) hc hp
      rw [List.prefix_nil] at hd
      subst hd
      exact .inl List.nil_infix
    · exact .inr hi
  | cons a lrest ih =>
    rcases List.infix_cons_iff.mp h with hp | hi
    · exact .inl (prefix_of_prefix_append_cons hc hp).isInfix
    · rcases ih hi with h1 | h2
      · exact .inl (List.infix_cons h1)
      · exact .inr h2

/-- A nonempty whitespace-free occurrence inside a list whose front part is all
whitespace lies in the back part. -/
theorem infix_of_infix_ws_append {ds l r : List Char} (hne : ds ≠ [])
    (hds : ∀ c ∈ ds, c.isWhitespace = false)
    (hl : ∀ c ∈ l, c.isWhitespace = true) (h : ds <:+: l ++ r) : ds <:+: r := by
  induction l with
  | nil => simpa using h
  | cons a lrest ih =>
    have ha : a ∉ ds := fun hm => by
      have := hds a hm
      rw [hl a (List.mem_cons_self _ _)] at this
      cases this
    rcases infix_append_cons_elim (l := ([] : List Char)) ha (by simpa using h) with h1 | h2
    · exact absurd (List.infix_nil.mp h1) hne
    · exact ih (fun c hcm => hl c (List.mem_cons_of_mem _ hcm)) h2

/-- Every nonempty whitespace-free contiguous occurrence inside the text still
to be split (together with the partial word already accumulated) survives into
one of the pieces produced by the whitespace splitter. -/
theorem jsSplitWsAux_infix (ds : List Char) (hne : ds ≠ [])
    (hds : ∀ c ∈ ds, c.isWhitespace = false) :
    ∀ (cs : List Char) (st : Option (List Char)),
      ds <:+: (st.elim [] List.reverse ++ cs) →
      ∃ w ∈ jsSplitWsAux st cs, ds <:+: w.data := by
  intro cs
  induction cs with
  | nil =>
    intro st h
    match st with
    | some acc =>
      exact ⟨String.mk acc.reverse, by simp [jsSplitWsAux], by simpa using h⟩
    | none =>
      exact absurd (List.infix_nil.mp (by simpa using h)) hne
  | cons c rest ih =>
    intro st h
    have hcds : c.isWhitespace = true → c ∉ ds := fun hw hm => by
      rw [hds c hm] at hw
      cases hw
    match st with
    | some acc =>
      by_cases hw : c.isWhitespace
      · rcases infix_append_cons_elim (hcds hw) (by simpa using h) with h1 | h2
        · exact ⟨String.mk acc.reverse, by simp [jsSplitWsAux, hw], by simpa using h1⟩
        · obtain ⟨w, hwmem, hwin⟩ := ih none (by simpa using h2)
          exact ⟨w, by simp [jsSplitWsAux, hw, hwmem], hwin⟩
      · have h' : ds <:+: (some (c :: acc)).elim [] List.reverse ++ rest := by
          simpa [List.reverse_cons, List.append_assoc] using h
        obtain ⟨w, hwmem, hwin⟩ := ih (some (c :: acc)) h'
        exact ⟨w, by simpa [jsSplitWsAux, hw] using hwmem, hwin⟩
    | none =>
      by_cases hw : c.isWhitespace
      · rcases infix_append_cons_elim (l := ([] : List Char)) (hcds hw) (by simpa using h)
          with h1 | h2
        · exact absurd (List.infix_nil.mp h1) hne
        · obtain ⟨w, hwmem, hwin⟩ := ih none (by simpa using h2)
          exact ⟨w, by simp [jsSplitWsAux, hw, hwmem], hwin⟩
      · have h' : ds <:+: (some [c]).elim [] List.reverse ++ rest := by simpa using h
        obtain ⟨w, hwmem, hwin⟩ := ih (some [c]) h'
        exact ⟨w, by simpa [jsSplitWsAux, hw] using hwmem, hwin⟩

/-- When the title contains dito, some word of its whitespace split contains
dito, so the word index the source guards against -1 is in range. -/
theorem dito_word_found {title : String} (h : strIncludes title "dito" = true) :
    (jsSplitWs title).findIdx (fun w => strIncludes w "dito") <
      (jsSplitWs title).length := by
  have hin : ("dito".data : List Char) <:+: title.data := (str_includes_iff _ _).mp h
  obtain ⟨w, hwmem, hwin⟩ :=
    jsSplitWsAux_infix "dito".data (by decide) (by decide) title.data (some [])
      (by simpa using hin)
  exact List.findIdx_lt_length_of_exists ⟨w, hwmem, (str_includes_iff _ _).mpr hwin⟩

/-- The article of the Tagalog dito example. -/
def sampleDitoArticle : BuzzSumoArticle :=
  { title := "Pumunta dito sa Manila for vacation", url := "https://example.com/travel",
    published_date := "January 1, 2025", author := none, domain_name := "example.com",
    engagement := sampleEngagement, thumbnail := none, excerpt := none }

/-- C4: when the lower-cased title contains dito but neither dito telecom nor
dito network, the relevance validator rejects the article as soon as the title
contains one of the literal Tagalog phrases, or the token directly following
the first word containing dito is one of sa, ang, na, pa, ay, or no
telco-context indicator occurs in the combined title and excerpt text. -/
theorem validateTelcoRelevance_dito_spec (article : BuzzSumoArticle)
    (h1 : strIncludes (jsToLower article.title) "dito" = true)
    (h2 : strIncludes (jsToLower article.title) "dito telecom" = false)
    (h3 : strIncludes (jsToLower article.title) "dito network" = false)
    (hrej :
      (∃ fp ∈ ditoFalsePositives, strIncludes (jsToLower article.title) fp = true) ∨
      (∃ nextWord ∈ tagalogFollowers,
        (jsSplitWs (jsToLower article.title)).get?
          ((jsSplitWs (jsToLower article.title)).findIdx
            (fun w => strIncludes w "dito") + 1) = some nextWord) ∨
      (∀ indicator ∈ telcoCompanyIndicators,
        strIncludes (jsToLower article.title ++ " " ++
          jsToLower (article.excerpt.getD "")) indicator = false)) :
    validateTelcoRelevance article = false := by
  suffices hd : ditoCheck (jsToLower article.title)
      (jsToLower article.title ++ " " ++ jsToLower (article.excerpt.getD "")) = true by
    simp [validateTelcoRelevance, hd]
  simp only [ditoCheck, h1, h2, h3, Bool.not_false, Bool.true_and]
  rcases hrej with ⟨fp, hfp, hp⟩ | ⟨nextWord, hnwmem, hnw⟩ | hctx
  · have hany : ditoFalsePositives.any
        (fun fp => strIncludes (jsToLower article.title) fp) = true :=
      List.any_eq_true.mpr ⟨fp, hfp, hp⟩
    simp [hany]
  · have hnext : ditoNextWordReject (jsToLower article.title) = true := by
      obtain ⟨hlt, -⟩ := List.get?_eq_some.mp hnw
      simp only [ditoNextWordReject]
      rw [if_pos (Nat.lt_of_succ_lt hlt), hnw]
      simpa using (string_contains_iff tagalogFollowers nextWord).mpr hnwmem
    simp [hnext]
  · have hno : ditoNoContextReject (jsToLower article.title)
        (jsToLower article.title ++ " " ++ jsToLower (article.excerpt.getD "")) = true := by
      simp only [ditoNoContextReject]
      rw [if_pos (dito_word_found h1)]
      simp only [Bool.not_eq_true', List.any_eq_false]
      intro indicator hind
      simp [hctx indicator hind]
    simp [hno]

/-- C4 witness: the rejection statement applied to the Pumunta dito sa Manila
article, each hypothesis discharged by evaluation; the validator rejects it. -/
theorem validateTelcoRelevance_dito_spec_witness :
    strIncludes (jsToLower sampleDitoArticle.title) "dito" = true ∧
    strIncludes (jsToLower sampleDitoArticle.title) "dito telecom" = false ∧
    strIncludes (jsToLower sampleDitoArticle.title) "dito network" = false ∧
    (∃ fp ∈ ditoFalsePositives,
      strIncludes (jsToLower sampleDitoArticle.title) fp = true) ∧
    validateTelcoRelevance sampleDitoArticle = false :=
  ⟨by decide, by decide, by decide, ⟨"dito sa", by decide, by decide⟩,
   validateTelcoRelevance_dito_spec sampleDitoArticle (by decide) (by decide) (by decide)
     (Or.inl ⟨"dito sa", by decide, by decide⟩)⟩
